import Mathlib

/-!
Verification of the `SimpfulConverter` class of pyFUME
(`src/pyfume/simpfulfier.py`), a translator from a fuzzy-model
description to Simpful source text.

The embedding follows the Python code line by line:

* Python exceptions (`IndexError`, failed `assert`, the two explicit
  `raise Exception(...)` sites) become the `PyError` type and fallible
  operations return `Except PyError _`.
* The mutable `self._source_code` list becomes explicit state passing:
  `generate_code` returns the updated converter together with the result.
* Numeric parameters are modelled as integers, carried exactly; the
  C-style `"%f"` and `"%e"` conversions the code applies to them are
  modelled exactly by `formatF` and `formatE` (including the rounding of
  `%e` to seven significant digits).
* Python `str` of a list of numbers / strings is modelled by
  `pyStrIntList` / `pyStrStrList`.
-/

inductive PyError where
  | indexError
  | assertionError
  | exceptionFuzzySetType (fstype : String)
  | exceptionModelOrder (order : String)
  deriving DecidableEq, Repr

/-- C-style `"%f"` applied to an integer-valued number: six zero
fraction digits after the decimal value. -/
def formatF (n : Int) : String :=
  (if n < 0 then "-" else "") ++ toString n.natAbs ++ ".000000"

/-- The number of decimal digits of `a`, with enough fuel for every
value a double-precision number can take. -/
def decDigits : Nat → Nat → Nat
  | 0, _ => 1
  | fuel + 1, a => if a < 10 then 1 else decDigits fuel (a / 10) + 1

/-- C-style `"%e"` applied to an integer-valued number: scientific
notation `d.dddddde+XX` with six fraction digits, rounding the value to
seven significant digits (ties to even), as Python's `"%e"` does.  The
seven mantissa digits and the exponent digits are extracted by division
and remainder so that the rendering evaluates on large inputs too. -/
def formatE (n : Int) : String :=
  let sign := if n < 0 then "-" else ""
  let a := n.natAbs
  if a = 0 then "0.000000e+00"
  else
    let d := decDigits 400 a
    let me : Nat × Nat :=
      if d ≤ 7 then (a * 10 ^ (7 - d), d - 1)
      else
        let p := 10 ^ (d - 7)
        let q := a / p
        let r := a % p
        let q := if 2 * r > p ∨ (2 * r = p ∧ q % 2 = 1) then q + 1 else q
        if q = 10 ^ 7 then (10 ^ 6, d) else (q, d - 1)
    sign ++ String.mk [Nat.digitChar (me.1 / 10 ^ 6), '.',
      Nat.digitChar (me.1 / 10 ^ 5 % 10), Nat.digitChar (me.1 / 10 ^ 4 % 10),
      Nat.digitChar (me.1 / 10 ^ 3 % 10), Nat.digitChar (me.1 / 10 ^ 2 % 10),
      Nat.digitChar (me.1 / 10 % 10), Nat.digitChar (me.1 % 10)] ++
    "e+" ++ (if me.2 < 100 then
      String.mk [Nat.digitChar (me.2 / 10), Nat.digitChar (me.2 % 10)]
    else toString me.2)

/-- Python `str` of a list of integer-valued numbers: `[a, b, c]`. -/
def pyStrIntList (xs : List Int) : String :=
  "[" ++ String.intercalate ", " (xs.map toString) ++ "]"

/-- Python `str` of a list of strings: `['a', 'b']`. -/
def pyStrStrList (xs : List String) : String :=
  "[" ++ String.intercalate ", " (xs.map fun x => "'" ++ x ++ "'") ++ "]"

/-- Whether `pat` starts `s`, on character lists. -/
def charsStartWith : List Char → List Char → Bool
  | [], _ => true
  | _ :: _, [] => false
  | a :: as, b :: bs => a == b && charsStartWith as bs

/-- Whether `pat` occurs contiguously in `s`, on character lists. -/
def charsContains (pat s : List Char) : Bool :=
  match s with
  | [] => charsStartWith pat []
  | _ :: bs => charsStartWith pat s || charsContains pat bs

/-- Whether `pat` occurs as a contiguous substring of `s`. -/
def hasSubstr (pat s : String) : Bool := charsContains pat.data s.data

/-- A Python `for` loop that appends `f x` for each `x`, propagating the
first raised exception. -/
def exceptMap {α β : Type} (f : α → Except PyError β) :
    List α → Except PyError (List β)
  | [] => Except.ok []
  | a :: l =>
    match f a with
    | Except.error e => Except.error e
    | Except.ok b =>
      match exceptMap f l with
      | Except.error e => Except.error e
      | Except.ok bs => Except.ok (b :: bs)

/-- The state of a `SimpfulConverter` instance: the model-description
fields assigned by `__init__`, plus the mutable `_source_code` list. -/
structure SimpfulConverter where
  input_variables : List String
  consequents_matrix : List (List Int)
  clusters : Nat
  fuzzy_sets : List (String × List Int)
  model_order : String
  fuzzy_sets_to_drop : List ((Nat × Nat) × Nat)
  extreme_values : Option (List (List Int))
  source_code : List String
  deriving DecidableEq, Repr

/-- `SimpfulConverter.__init__`: stores the model description, derives
the cluster count from the number of consequent rows, for a first-order
model asserts `len(input_variables) + 1 == len(consequents_matrix[0])`
(reading `consequents_matrix[0]` raises `IndexError` on an empty
matrix), and seeds the source-code list with the header lines. -/
def SimpfulConverter.init (input_variables_names : List String)
    (consequents_matrix : List (List Int))
    (fuzzy_sets : List (String × List Int))
    (model_order : String)
    (fuzzy_sets_to_drop : Option (List ((Nat × Nat) × Nat)))
    (extreme_values : Option (List (List Int)))
    (operators : Option (List String)) :
    Except PyError SimpfulConverter :=
  let drop := match fuzzy_sets_to_drop with
    | none => []
    | some d => d
  let check : Except PyError Unit :=
    if model_order = "first" then
      match consequents_matrix[0]? with
      | none => Except.error PyError.indexError
      | some row0 =>
        if input_variables_names.length + 1 = row0.length then Except.ok ()
        else Except.error PyError.assertionError
    else Except.ok ()
  match check with
  | Except.error e => Except.error e
  | Except.ok _ =>
    Except.ok {
      input_variables := input_variables_names,
      consequents_matrix := consequents_matrix,
      clusters := consequents_matrix.length,
      fuzzy_sets := fuzzy_sets,
      model_order := model_order,
      fuzzy_sets_to_drop := drop,
      extreme_values := extreme_values,
      source_code :=
        ["# WARNING: this source code was automatically generated by pyFUME.",
         "from simpful import *",
         (match operators with
          | none => "\nFS = FuzzySystem(show_banner=False)"
          | some ops => "\nFS = FuzzySystem(operators=" ++ pyStrStrList ops ++ ")")] }

namespace SimpfulConverter

/-- `_create_antecedents`: for each rule `i`, the conjunction over the
variables of `(var IS clusterN)`, where `N` is `i + 1` unless the
`(variable, rule)` pair is in the drop-set, in which case `N` is the
drop-set's replacement index plus one. -/
def create_antecedents (s : SimpfulConverter) : List String :=
  (List.range s.clusters).map fun i =>
    String.intercalate " AND " (s.input_variables.enum.map fun p =>
      match List.lookup (p.1, i) s.fuzzy_sets_to_drop with
      | some r => "(" ++ p.2 ++ " IS cluster" ++ toString (r + 1) ++ ")"
      | none => "(" ++ p.2 ++ " IS cluster" ++ toString (i + 1) ++ ")")

/-- `create_rules`: pairs each antecedent with `funN`. -/
def create_rules (s : SimpfulConverter) : List String :=
  let A := s.create_antecedents
  let B := (List.range s.clusters).map fun i => "fun" ++ toString (i + 1)
  (A.zip B).map fun p => "IF " ++ p.1 ++ " THEN (OUTPUT IS " ++ p.2 ++ ")"

/-- One row of `_create_consequents`: `"+".join("%e*%s" pairs)` over
`zip(input_variables, row[:-1])`, then `+%e` of `row[-1]`; reading
`row[-1]` of an empty row raises `IndexError`. -/
def consequentRow (names : List String) (row : List Int) :
    Except PyError String :=
  match row.getLast? with
  | none => Except.error PyError.indexError
  | some bias =>
    Except.ok (String.intercalate "+"
      ((names.zip row.dropLast).map fun p => formatE p.2 ++ "*" ++ p.1)
      ++ "+" ++ formatE bias)

/-- `_create_consequents`: one expression string per consequent row. -/
def create_consequents (s : SimpfulConverter) : Except PyError (List String) :=
  exceptMap (consequentRow s.input_variables) s.consequents_matrix

/-- The constructor part of one `FuzzySet(...)` declaration: the
shape-specific membership-function constructor selected by the shape tag
of `fp` (`IndexError` when a required parameter is missing, and the
`"Fuzzy set type not supported"` exception on any other tag). -/
def fuzzySetBody (fp : String × List Int) (term : String) :
    Except PyError String :=
  let params := fp.2
  if fp.1 = "gauss" then
    match params[0]?, params[1]? with
    | some p0, some p1 =>
      Except.ok ("function=Gaussian_MF(" ++ formatF p0 ++ ", " ++
        formatF p1 ++ "), term='" ++ term ++ "')")
    | _, _ => Except.error PyError.indexError
  else if fp.1 = "gauss2" then
    match params[0]?, params[1]?, params[2]?, params[3]? with
    | some p0, some p1, some p2, some p3 =>
      Except.ok ("function=DoubleGaussian_MF(" ++ formatF p0 ++ ", " ++
        formatF p1 ++ ", " ++ formatF p2 ++ ", " ++ formatF p3 ++
        "), term='" ++ term ++ "')")
    | _, _, _, _ => Except.error PyError.indexError
  else if fp.1 = "sigmoid" then
    match params[0]?, params[1]? with
    | some p0, some p1 =>
      Except.ok ("function=Sigmoid_MF(" ++ formatF p0 ++ ", " ++
        formatF p1 ++ "), term='" ++ term ++ "')")
    | _, _ => Except.error PyError.indexError
  else if fp.1 = "invgauss" then
    match params[0]?, params[1]? with
    | some p0, some p1 =>
      Except.ok ("function=InvGaussian_MF(" ++ formatF p0 ++ ", " ++
        formatF p1 ++ "), term='" ++ term ++ "')")
    | _, _ => Except.error PyError.indexError
  else Except.error (PyError.exceptionFuzzySetType fp.1)

/-- One `FS_j = FuzzySet(...)` line of `_create_fuzzy_sets`, for
variable index `num_var`, cluster index `cluster` and global counter
`j`: a `# ` comment prefix when the pair is in the drop-set, then the
declaration head and the shape-specific constructor (`IndexError` when
`fuzzy_sets[j]` is missing). -/
def fuzzySetLine (s : SimpfulConverter) (num_var cluster j : Nat) :
    Except PyError String :=
  let pre := if (List.lookup (num_var, cluster) s.fuzzy_sets_to_drop).isSome
    then "# " else ""
  let head := pre ++ "FS_" ++ toString (j + 1) ++ " = FuzzySet("
  let term := "cluster" ++ toString (cluster + 1)
  match s.fuzzy_sets[j]? with
  | none => Except.error PyError.indexError
  | some fp =>
    match fuzzySetBody fp term with
    | Except.error e => Except.error e
    | Except.ok body => Except.ok (head ++ body)

/-- The fuzzy-set lines of one variable's block, in cluster order; the
global counter starts at `jStart` (`num_var * clusters`). -/
def varLineList (s : SimpfulConverter) (num_var jStart : Nat) :
    Except PyError (List String) :=
  exceptMap (fun c => s.fuzzySetLine num_var c (jStart + c))
    (List.range s.clusters)

/-- The `subchunk` list of one variable: the `FS_j` identifiers of the
clusters that are not in the drop-set, in cluster order. -/
def subchunkOfVar (s : SimpfulConverter) (num_var jStart : Nat) : List String :=
  ((List.range s.clusters).filter fun c =>
    (List.lookup (num_var, c) s.fuzzy_sets_to_drop).isNone).map fun c =>
      "FS_" ++ toString (jStart + c + 1)

/-- The `MF_var = LinguisticVariable(...)` line: with the
`universe_of_discourse` argument exactly when `extreme_values` was
supplied (reading `extreme_values[num_var]` raises `IndexError` when it
is too short). -/
def lvLine (s : SimpfulConverter) (num_var : Nat) (var : String)
    (subchunk : List String) : Except PyError String :=
  match s.extreme_values with
  | none =>
    Except.ok ("MF_" ++ var ++ " = LinguisticVariable([" ++
      String.intercalate ", " subchunk ++ "], concept='" ++ var ++ "')\n")
  | some ev =>
    match ev[num_var]? with
    | none => Except.error PyError.indexError
    | some b =>
      Except.ok ("MF_" ++ var ++ " = LinguisticVariable([" ++
        String.intercalate ", " subchunk ++ "], concept='" ++ var ++
        "' , universe_of_discourse=" ++ pyStrIntList b ++ ")\n")

/-- Joins lines with a trailing newline after each, as the chunk
accumulation `chunk += line + "\n"` of `_create_fuzzy_sets` does. -/
def joinNL : List String → String
  | [] => ""
  | l :: ls => (l ++ "\n") ++ joinNL ls

/-- One variable's full chunk in `_create_fuzzy_sets`: its fuzzy-set
lines, the linguistic-variable line, and the registration line. -/
def varBlock (s : SimpfulConverter) (num_var jStart : Nat) (var : String) :
    Except PyError String :=
  match s.varLineList num_var jStart with
  | Except.error e => Except.error e
  | Except.ok ls =>
    match s.lvLine num_var var (s.subchunkOfVar num_var jStart) with
    | Except.error e => Except.error e
    | Except.ok lv =>
      Except.ok (joinNL ls ++ lv ++
        "FS.add_linguistic_variable('" ++ var ++ "', MF_" ++ var ++ ")\n\n")

/-- The loop of `_create_fuzzy_sets` over the enumerated variables; the
global counter before variable `num_var` is `num_var * clusters`. -/
def cfsGo (s : SimpfulConverter) : List (Nat × String) → Except PyError String
  | [] => Except.ok ""
  | p :: rest =>
    match s.varBlock p.1 (p.1 * s.clusters) p.2 with
    | Except.error e => Except.error e
    | Except.ok vb =>
      match cfsGo s rest with
      | Except.error e => Except.error e
      | Except.ok tail => Except.ok (vb ++ tail)

/-- `_create_fuzzy_sets`: the concatenated per-variable chunks. -/
def create_fuzzy_sets (s : SimpfulConverter) : Except PyError String :=
  cfsGo s s.input_variables.enum

/-- The `RULE%d = "%s"` lines of `generate_code`. -/
def ruleLines (s : SimpfulConverter) : List String :=
  s.create_rules.enum.map fun p =>
    "RULE" ++ toString (p.1 + 1) ++ " = \"" ++ p.2 ++ "\""

/-- The `FS.add_rules([...])` line of `generate_code`. -/
def addRulesLine (s : SimpfulConverter) : String :=
  "FS.add_rules([" ++ String.intercalate ", "
    ((List.range s.clusters).map fun i => "RULE" ++ toString (i + 1)) ++ "])"

/-- The output-function section of `generate_code`: per cluster either a
`set_output_function` line (first order) or a `set_crisp_output_value`
line (zero order); any other model order raises the
`"Model order not supported"` exception. -/
def consequentLines (s : SimpfulConverter) : Except PyError (List String) :=
  if s.model_order = "first" then
    match s.create_consequents with
    | Except.error e => Except.error e
    | Except.ok B =>
      exceptMap (fun i =>
        match B[i]? with
        | none => Except.error PyError.indexError
        | some b =>
          Except.ok ("FS.set_output_function('fun" ++ toString (i + 1) ++
            "', '" ++ b ++ "')")) (List.range s.clusters)
  else if s.model_order = "zero" then
    exceptMap (fun i =>
      match s.consequents_matrix[i]? with
      | none => Except.error PyError.indexError
      | some row =>
        Except.ok ("FS.set_crisp_output_value('fun" ++ toString (i + 1) ++
          "', " ++ pyStrIntList row ++ ")")) (List.range s.clusters)
  else Except.error (PyError.exceptionModelOrder s.model_order)

/-- The lines one `generate_code` call appends to `_source_code`, and
the raised exception, when any.  On an exception the lines appended
before the failing stage are kept; for a converter whose cluster count
equals its row count (as construction guarantees) these are exactly the
lines Python has appended at the raise site. -/
def genBlock (s : SimpfulConverter) : List String × Option PyError :=
  let rl := s.ruleLines ++ [s.addRulesLine, ""]
  match s.consequentLines with
  | Except.error e => (rl, some e)
  | Except.ok cls =>
    match s.create_fuzzy_sets with
    | Except.error e => (rl ++ cls ++ [""], some e)
    | Except.ok chunk =>
      (rl ++ cls ++ ["", chunk, "# end of automatically generated code #"], none)

/-- `generate_code`: appends the generated lines to the retained
`_source_code` list (which is never cleared first) and, on success,
returns the newline-join of the whole list. -/
def generate_code (s : SimpfulConverter) :
    SimpfulConverter × Except PyError String :=
  match s.genBlock with
  | (lines, some e) =>
    ({ s with source_code := s.source_code ++ lines }, Except.error e)
  | (lines, none) =>
    ({ s with source_code := s.source_code ++ lines },
      Except.ok (String.intercalate "\n" (s.source_code ++ lines)))

end SimpfulConverter

open SimpfulConverter

/-! ### Concrete model descriptions -/

/-- The source-code header seeded by construction without operators. -/
def headerLines : List String :=
  ["# WARNING: this source code was automatically generated by pyFUME.",
   "from simpful import *",
   "\nFS = FuzzySystem(show_banner=False)"]

/-- The zero-order two-variable scenario of the specification. -/
def sc6 : SimpfulConverter :=
  { input_variables := ["x", "y"],
    consequents_matrix := [[1, 2, 3]],
    clusters := 1,
    fuzzy_sets := [("gauss", [0, 1]), ("gauss", [1, 1])],
    model_order := "zero",
    fuzzy_sets_to_drop := [],
    extreme_values := none,
    source_code := headerLines }

/-- The first-order example from the source file's example block. -/
def scMain : SimpfulConverter :=
  { input_variables := ["pippo", "pluto"],
    consequents_matrix := [[1, 2, 3], [2, 3, 5]],
    clusters := 2,
    fuzzy_sets := [("gauss", [0, 1]), ("sigmoid", [1, 2]),
      ("gauss2", [0, 1, 2, 3]), ("invgauss", [0, 1])],
    model_order := "first",
    fuzzy_sets_to_drop := [],
    extreme_values := none,
    source_code := headerLines }

/-- A first-order model where the fuzzy set of variable 0, cluster 1 is
dropped, cluster 0 designated as its replacement. -/
def scDrop : SimpfulConverter :=
  { input_variables := ["x", "y"],
    consequents_matrix := [[1, 2, 3], [4, 5, 6]],
    clusters := 2,
    fuzzy_sets := [("gauss", [0, 1]), ("gauss", [2, 1]),
      ("gauss", [3, 1]), ("gauss", [4, 1])],
    model_order := "first",
    fuzzy_sets_to_drop := [((0, 1), 0)],
    extreme_values := none,
    source_code := headerLines }

/-- A converter whose model order is neither recognized value. -/
def scBadOrder : SimpfulConverter :=
  { sc6 with model_order := "second" }

/-- A converter with universe-of-discourse bounds supplied. -/
def scEV : SimpfulConverter :=
  { sc6 with extreme_values := some [[0, 10], [1, 5]] }

/-- Two first-order models that differ in one consequent coefficient
whose difference the seven-significant-digit `%e` rendering loses. -/
def scPrecA : SimpfulConverter :=
  { input_variables := ["x"],
    consequents_matrix := [[12345678, 0]],
    clusters := 1,
    fuzzy_sets := [("gauss", [0, 1])],
    model_order := "first",
    fuzzy_sets_to_drop := [],
    extreme_values := none,
    source_code := headerLines }

/-- `scPrecA` with its first coefficient changed by one unit. -/
def scPrecB : SimpfulConverter :=
  { scPrecA with consequents_matrix := [[12345679, 0]] }

/-- The text generated for `sc6` (empty on failure). -/
def doc6 : String :=
  match (sc6.generate_code).2 with
  | Except.ok t => t
  | Except.error _ => ""

/-- A converter with an unsupported fuzzy-set shape tag. -/
def scTriangle : SimpfulConverter :=
  { input_variables := ["x"],
    consequents_matrix := [[5]],
    clusters := 1,
    fuzzy_sets := [("triangle", [0, 1])],
    model_order := "zero",
    fuzzy_sets_to_drop := [],
    extreme_values := none,
    source_code := headerLines }


/-- The prefix before a line of a text document: empty or
newline-terminated. -/
def lineStart (p : String) : Prop := p = "" ∨ ∃ u, p = u ++ "\n"


/-- The numeric value of a decimal digit character. -/
def charVal (c : Char) : Nat := c.toNat - 48


/-- Decimal interpretation of a digit string, most significant first. -/
def interp (l : List Char) : Nat := l.foldl (fun a c => a * 10 + charVal c) 0


/-! ### Facts about `exceptMap` -/

theorem exceptMap_ok_get {α β : Type} {f : α → Except PyError β}
    {l : List α} {res : List β} (h : exceptMap f l = Except.ok res) :
    ∀ {i : Nat} {a : α}, l[i]? = some a →
      ∃ b, res[i]? = some b ∧ f a = Except.ok b := by
  induction l generalizing res with
  | nil =>
    intro i a ha
    simp at ha
  | cons x xs ih =>
    intro i a ha
    cases hfx : f x with
    | error e => simp [exceptMap, hfx] at h
    | ok b =>
      cases hrest : exceptMap f xs with
      | error e => simp [exceptMap, hfx, hrest] at h
      | ok bs =>
        simp [exceptMap, hfx, hrest] at h
        subst h
        cases i with
        | zero =>
          simp at ha
          subst ha
          exact ⟨b, by simp, hfx⟩
        | succ i =>
          simp at ha
          obtain ⟨b2, hb2, hfb2⟩ := ih hrest ha
          exact ⟨b2, by simpa using hb2, hfb2⟩

theorem exceptMap_ok_mem {α β : Type} {f : α → Except PyError β}
    {l : List α} {res : List β} (h : exceptMap f l = Except.ok res) :
    ∀ {a : α}, a ∈ l → ∃ b, f a = Except.ok b := by
  intro a ha
  obtain ⟨i, hi⟩ := List.getElem?_of_mem ha
  obtain ⟨b, _, hfb⟩ := exceptMap_ok_get h hi
  exact ⟨b, hfb⟩

/-! ### String concatenation helpers -/

theorem lineStart_append {a b : String} (ha : lineStart a) (hb : lineStart b) :
    lineStart (a ++ b) := by
  cases hb with
  | inl h => subst h; simpa using ha
  | inr h =>
    obtain ⟨u, rfl⟩ := h
    exact Or.inr ⟨a ++ u, (String.append_assoc a u "\n").symm⟩

theorem lineStart_newline (x : String) : lineStart (x ++ "\n") :=
  Or.inr ⟨x, rfl⟩

/-! ### Facts about `joinNL` -/

theorem joinNL_lineStart (ls : List String) : lineStart (joinNL ls) := by
  induction ls with
  | nil => exact Or.inl rfl
  | cons l ls ih => exact lineStart_append (lineStart_newline l) ih

theorem joinNL_get_split {ls : List String} :
    ∀ {c : Nat} {line : String}, ls[c]? = some line →
      ∃ pre post, joinNL ls = pre ++ ((line ++ "\n") ++ post) ∧ lineStart pre := by
  induction ls with
  | nil => intro c line h; simp at h
  | cons l ls ih =>
    intro c line h
    cases c with
    | zero =>
      simp at h
      subst h
      exact ⟨"", joinNL ls, by simp [joinNL], Or.inl rfl⟩
    | succ c =>
      simp at h
      obtain ⟨pre, post, heq, hpre⟩ := ih h
      refine ⟨(l ++ "\n") ++ pre, post, ?_, lineStart_append (lineStart_newline l) hpre⟩
      simp [joinNL, heq, String.append_assoc]

/-! ### Injectivity of the decimal rendering of natural numbers -/

theorem charVal_digitChar : ∀ d : Nat, d < 10 → charVal (Nat.digitChar d) = d := by
  decide

theorem toDigitsCore_fuel :
    ∀ (f : Nat), ∀ (g n : Nat) (l : List Char), n < f → n < g →
      Nat.toDigitsCore 10 f n l = Nat.toDigitsCore 10 g n l := by
  intro f
  induction f with
  | zero => intro g n l hf hg; exact absurd hf (Nat.not_lt_zero n)
  | succ f ih =>
    intro g n l hf hg
    cases g with
    | zero => exact absurd hg (Nat.not_lt_zero n)
    | succ g =>
      simp only [Nat.toDigitsCore]
      by_cases h : n / 10 = 0
      · simp [h]
      · simp only [h, if_false]
        have hn0 : 0 < n := Nat.pos_of_ne_zero fun he => h (by subst he; rfl)
        have hd : n / 10 < n := Nat.div_lt_self hn0 (by norm_num)
        exact ih g (n / 10) _ (by omega) (by omega)

theorem toDigitsCore_shift :
    ∀ (f : Nat), ∀ (n : Nat) (l : List Char),
      Nat.toDigitsCore 10 f n l = Nat.toDigitsCore 10 f n [] ++ l := by
  intro f
  induction f with
  | zero => intro n l; simp [Nat.toDigitsCore]
  | succ f ih =>
    intro n l
    simp only [Nat.toDigitsCore]
    by_cases h : n / 10 = 0
    · simp [h]
    · simp only [h, if_false]
      rw [ih (n / 10) (Nat.digitChar (n % 10) :: l),
        ih (n / 10) [Nat.digitChar (n % 10)]]
      simp

theorem interp_toDigits : ∀ n : Nat, interp (Nat.toDigits 10 n) = n := by
  intro n
  induction n using Nat.strong_induction_on with
  | _ n ih =>
    unfold Nat.toDigits
    by_cases h : n / 10 = 0
    · have hn : n < 10 := (Nat.div_eq_zero_iff (by norm_num)).mp h
      simp only [Nat.toDigitsCore, h, if_true]
      have hmod : n % 10 = n := Nat.mod_eq_of_lt hn
      simp [interp, hmod, charVal_digitChar n hn]
    · have hn0 : 0 < n := Nat.pos_of_ne_zero fun he => h (by subst he; rfl)
      have hd : n / 10 < n := Nat.div_lt_self hn0 (by norm_num)
      simp only [Nat.toDigitsCore, h, if_false]
      rw [toDigitsCore_fuel n (n / 10 + 1) (n / 10) _ hd (Nat.lt_succ_self _)]
      rw [toDigitsCore_shift]
      have hrec : interp (Nat.toDigits 10 (n / 10)) = n / 10 := ih _ hd
      unfold Nat.toDigits at hrec
      simp only [interp] at hrec ⊢
      rw [List.foldl_append, hrec]
      simp only [List.foldl]
      rw [charVal_digitChar _ (Nat.mod_lt n (by norm_num))]
      omega

theorem natRepr_inj {m n : Nat} (h : Nat.repr m = Nat.repr n) : m = n := by
  have hd : Nat.toDigits 10 m = Nat.toDigits 10 n := by
    have h2 := congrArg String.data h
    simpa [Nat.repr, List.asString] using h2
  have hm := interp_toDigits m
  rw [hd, interp_toDigits n] at hm
  exact hm.symm

theorem natToString_inj {m n : Nat} (h : toString m = toString n) : m = n :=
  natRepr_inj h

/-! ### Structure of successful fuzzy-set-block generation -/

theorem varBlock_ok_parts {s : SimpfulConverter} {v j0 : Nat} {var vb : String}
    (h : s.varBlock v j0 var = Except.ok vb) :
    ∃ ls lv, s.varLineList v j0 = Except.ok ls ∧
      s.lvLine v var (s.subchunkOfVar v j0) = Except.ok lv ∧
      vb = joinNL ls ++ lv ++
        "FS.add_linguistic_variable('" ++ var ++ "', MF_" ++ var ++ ")\n\n" := by
  unfold varBlock at h
  cases h1 : s.varLineList v j0 with
  | error e => rw [h1] at h; cases h
  | ok ls =>
    rw [h1] at h
    cases h2 : s.lvLine v var (s.subchunkOfVar v j0) with
    | error e => rw [h2] at h; cases h
    | ok lv =>
      rw [h2] at h
      injection h with h
      exact ⟨ls, lv, rfl, rfl, h.symm⟩

theorem varBlock_ok_lineStart {s : SimpfulConverter} {v j0 : Nat}
    {var vb : String} (h : s.varBlock v j0 var = Except.ok vb) :
    lineStart vb := by
  obtain ⟨ls, lv, _, _, rfl⟩ := varBlock_ok_parts h
  have h3 : (")\n\n" : String) = ")\n" ++ "\n" := rfl
  rw [h3, ← String.append_assoc]
  exact lineStart_newline _

theorem cfsGo_ok_split {s : SimpfulConverter} :
    ∀ {l : List (Nat × String)} {ch : String}, cfsGo s l = Except.ok ch →
      ∀ {p : Nat × String}, p ∈ l →
        ∃ pre vb post, ch = pre ++ (vb ++ post) ∧
          s.varBlock p.1 (p.1 * s.clusters) p.2 = Except.ok vb ∧
          lineStart pre := by
  intro l
  induction l with
  | nil => intro ch h p hp; simp at hp
  | cons q rest ih =>
    intro ch h p hp
    cases hq : s.varBlock q.1 (q.1 * s.clusters) q.2 with
    | error e => simp [cfsGo, hq] at h
    | ok vb =>
      cases hrest : cfsGo s rest with
      | error e => simp [cfsGo, hq, hrest] at h
      | ok tail =>
        simp [cfsGo, hq, hrest] at h
        subst h
        rcases List.mem_cons.mp hp with rfl | hmem
        · exact ⟨"", vb, tail, by simp, hq, Or.inl rfl⟩
        · obtain ⟨pre, vb2, post, heq, hvb2, hpre⟩ := ih hrest hmem
          exact ⟨vb ++ pre, vb2, post, by rw [heq, String.append_assoc], hvb2,
            lineStart_append (varBlock_ok_lineStart hq) hpre⟩

theorem varBlock_line_split {s : SimpfulConverter} {v j0 : Nat} {var vb : String}
    (h : s.varBlock v j0 var = Except.ok vb) {c : Nat} (hc : c < s.clusters) :
    ∃ line pre post, s.fuzzySetLine v c (j0 + c) = Except.ok line ∧
      vb = pre ++ ((line ++ "\n") ++ post) ∧ lineStart pre := by
  obtain ⟨ls, lv, hls, hlv, rfl⟩ := varBlock_ok_parts h
  have hr : (List.range s.clusters)[c]? = some c := by
    simp [List.getElem?_range hc]
  obtain ⟨line, hline, hfl⟩ := exceptMap_ok_get hls hr
  obtain ⟨pre, post, hj, hpre⟩ := joinNL_get_split hline
  refine ⟨line, pre,
    post ++ (lv ++ ("FS.add_linguistic_variable('" ++ var ++ "', MF_" ++
      var ++ ")\n\n")), hfl, ?_, hpre⟩
  rw [hj]
  simp [String.append_assoc]

theorem fuzzySetLine_dropped {s : SimpfulConverter} {v c j r : Nat}
    {line : String}
    (hdrop : List.lookup (v, c) s.fuzzy_sets_to_drop = some r)
    (h : s.fuzzySetLine v c j = Except.ok line) :
    ∃ body, line = "# " ++ body := by
  unfold fuzzySetLine at h
  rw [hdrop] at h
  simp only [Option.isSome_some, if_true] at h
  cases hj : s.fuzzy_sets[j]? with
  | none => rw [hj] at h; cases h
  | some fp =>
    cases hb : fuzzySetBody fp ("cluster" ++ toString (c + 1)) with
    | error e => simp [hj, hb] at h
    | ok body =>
      simp only [hj, hb] at h
      injection h with h
      exact ⟨"FS_" ++ toString (j + 1) ++ " = FuzzySet(" ++ body, by
        rw [← h]; simp only [String.append_assoc]⟩

/-! ### Decomposition of `generate_code` -/

theorem generate_ok_parts {s s' : SimpfulConverter} {t : String}
    (h : s.generate_code = (s', Except.ok t)) :
    ∃ cls chunk, s.consequentLines = Except.ok cls ∧
      s.create_fuzzy_sets = Except.ok chunk ∧
      s'.source_code = s.source_code ++
        (s.ruleLines ++ [s.addRulesLine, ""] ++ cls ++
          ["", chunk, "# end of automatically generated code #"]) ∧
      t = String.intercalate "\n" s'.source_code := by
  unfold generate_code genBlock at h
  cases hcl : s.consequentLines with
  | error e => simp only [hcl] at h; simp at h
  | ok cls =>
    cases hch : s.create_fuzzy_sets with
    | error e => simp only [hcl, hch] at h; simp at h
    | ok chunk =>
      simp only [hcl, hch] at h
      rw [Prod.mk.injEq] at h
      obtain ⟨h1, h2⟩ := h
      subst h1
      injection h2 with h2
      exact ⟨cls, chunk, rfl, rfl, rfl, h2.symm⟩

theorem cfsGo_source_code_irrel (s : SimpfulConverter) (sc : List String) :
    ∀ l, cfsGo { s with source_code := sc } l = cfsGo s l := by
  intro l
  induction l with
  | nil => rfl
  | cons p rest ih =>
    simp only [cfsGo, ih]
    rfl

theorem create_fuzzy_sets_source_code_irrel (s : SimpfulConverter)
    (sc : List String) :
    create_fuzzy_sets { s with source_code := sc } = s.create_fuzzy_sets :=
  cfsGo_source_code_irrel s sc s.input_variables.enum

theorem genBlock_source_code_irrel (s : SimpfulConverter) (sc : List String) :
    genBlock { s with source_code := sc } = s.genBlock := by
  unfold genBlock
  rw [create_fuzzy_sets_source_code_irrel s sc]
  rfl

theorem generate_code_of_genBlock_none {s : SimpfulConverter}
    {b : List String} (h : s.genBlock = (b, none)) :
    s.generate_code = ({ s with source_code := s.source_code ++ b },
      Except.ok (String.intercalate "\n" (s.source_code ++ b))) := by
  unfold generate_code
  rw [h]

theorem genBlock_none_of_ok {s s' : SimpfulConverter} {t : String}
    (h : s.generate_code = (s', Except.ok t)) :
    s.genBlock = ((s.genBlock).1, none) := by
  unfold generate_code at h
  cases hg : s.genBlock with
  | mk b e =>
    cases e with
    | some e0 => rw [hg] at h; simp at h
    | none => rfl

theorem create_fuzzy_sets_ok_line {s : SimpfulConverter} {ch : String}
    (h : s.create_fuzzy_sets = Except.ok ch) {v : Nat} {var : String}
    (hv : s.input_variables[v]? = some var) {c : Nat} (hc : c < s.clusters) :
    ∃ line, s.fuzzySetLine v c (v * s.clusters + c) = Except.ok line := by
  have hmem : (v, var) ∈ s.input_variables.enum :=
    List.mk_mem_enum_iff_getElem?.mpr hv
  obtain ⟨pre, vb, post, _, hvb, _⟩ := cfsGo_ok_split h hmem
  obtain ⟨line, _, _, hfl, _, _⟩ := varBlock_line_split hvb hc
  exact ⟨line, hfl⟩

/-! ### The claims -/

/-- C10: constructing with model order `"first"` and an empty consequent
matrix fails with the out-of-range access (`IndexError`) raised while
the row-length check reads `consequents_matrix[0]`, not with the
assertion (validation) error; the row-length check implicitly assumes a
non-empty matrix. -/
theorem init_empty_matrix_indexError (vars : List String)
    (fs : List (String × List Int)) (drop : Option (List ((Nat × Nat) × Nat)))
    (ev : Option (List (List Int))) (ops : Option (List String)) :
    SimpfulConverter.init vars [] fs "first" drop ev ops =
      Except.error PyError.indexError := by
  unfold SimpfulConverter.init
  rfl

/-- C1 (counterexample): the constructor's validation reads only the
first consequent row, so construction succeeds on a first-order model
description one of whose rows has the wrong length: with two variables,
the matrix `[[1,2,3],[1,2]]` contains the row `[1,2]` of length 2 ≠ 3,
yet construction returns a converter. -/
theorem init_second_row_unchecked :
    (SimpfulConverter.init ["x", "y"] [[1, 2, 3], [1, 2]]
      [("gauss", [0, 1])] "first" none none none).isOk = true ∧
    ([[1, 2, 3], [(1 : Int), 2]].any
      fun row => row.length != ["x", "y"].length + 1) = true := by
  decide

/-- C1 (amended): for a first-order model with a non-empty consequent
matrix, construction fails with the validation (assertion) error exactly
when the FIRST row does not have `variables + 1` entries — rows past the
first are not validated — and on success the converter's document holds
only the three header lines, no generated text. -/
theorem init_first_row_validation (vars : List String) (r0 : List Int)
    (rest : List (List Int)) (fs : List (String × List Int))
    (drop : Option (List ((Nat × Nat) × Nat))) (ev : Option (List (List Int)))
    (ops : Option (List String)) :
    (vars.length + 1 ≠ r0.length →
      SimpfulConverter.init vars (r0 :: rest) fs "first" drop ev ops =
        Except.error PyError.assertionError) ∧
    (vars.length + 1 = r0.length →
      ∃ s, SimpfulConverter.init vars (r0 :: rest) fs "first" drop ev ops =
        Except.ok s ∧ s.source_code.length = 3 ∧ s.model_order = "first") := by
  constructor
  · intro hne
    unfold SimpfulConverter.init
    simp [hne]
  · intro heq
    refine ⟨{ input_variables := vars,
              consequents_matrix := (r0 :: rest),
              clusters := (r0 :: rest).length,
              fuzzy_sets := fs,
              model_order := "first",
              fuzzy_sets_to_drop := (match drop with | none => [] | some d => d),
              extreme_values := ev,
              source_code :=
                (["# WARNING: this source code was automatically generated by pyFUME.",
                  "from simpful import *",
                  (match ops with
                   | none => "\nFS = FuzzySystem(show_banner=False)"
                   | some ops2 =>
                     "\nFS = FuzzySystem(operators=" ++ pyStrStrList ops2 ++ ")")]) },
      ?_, rfl, rfl⟩
    unfold SimpfulConverter.init
    simp [heq]

/-- C1 (witness for the amended claim): both directions at concrete
inputs — a wrong-length first row fails the assertion, a correct one
constructs with only the header document. -/
theorem init_first_row_validation_witness :
    (SimpfulConverter.init ["x", "y"] [[1, 2]] [] "first" none none none =
      Except.error PyError.assertionError) ∧
    ∃ s, SimpfulConverter.init ["x", "y"] [[1, 2, 3]] [] "first" none none none =
      Except.ok s ∧ s.source_code.length = 3 ∧ s.model_order = "first" :=
  ⟨(init_first_row_validation ["x", "y"] [1, 2] [] [] none none none).1
      (by decide),
   (init_first_row_validation ["x", "y"] [1, 2, 3] [] [] none none none).2 rfl⟩

/-- C9: generation is a deterministic function of the model description:
two translators freshly constructed from identical inputs (with no
drop-set) produce character-for-character identical generation results. -/
theorem generation_deterministic (vars : List String) (cm : List (List Int))
    (fs : List (String × List Int)) (order : String)
    (ev : Option (List (List Int))) (ops : Option (List String))
    (s1 s2 : SimpfulConverter)
    (h1 : SimpfulConverter.init vars cm fs order none ev ops = Except.ok s1)
    (h2 : SimpfulConverter.init vars cm fs order none ev ops = Except.ok s2) :
    (s1.generate_code).2 = (s2.generate_code).2 := by
  rw [h1] at h2
  injection h2 with h2
  rw [h2]

/-- C9 (witness): the zero-order scenario constructed twice generates
the same result. -/
theorem generation_deterministic_witness :
    (sc6.generate_code).2 = (sc6.generate_code).2 :=
  generation_deterministic ["x", "y"] [[1, 2, 3]]
    [("gauss", [0, 1]), ("gauss", [1, 1])] "zero" none none sc6 sc6 rfl rfl

/-- C8: if the model order is neither `"first"` nor `"zero"`, generation
raises the unsupported-model-order exception and returns no text; and
whenever generation returns text, that text is the newline-join of the
converter's complete source-code document (never a partial string). -/
theorem model_order_dispatch (s : SimpfulConverter) :
    (s.model_order ≠ "first" → s.model_order ≠ "zero" →
      (s.generate_code).2 =
        Except.error (PyError.exceptionModelOrder s.model_order)) ∧
    (∀ t : String, (s.generate_code).2 = Except.ok t →
      t = String.intercalate "\n" ((s.generate_code).1).source_code) := by
  constructor
  · intro hf hz
    unfold generate_code genBlock consequentLines
    rw [if_neg hf, if_neg hz]
  · intro t ht
    unfold generate_code at ht ⊢
    cases hgb : s.genBlock with
    | mk b e =>
      cases e with
      | some e0 => rw [hgb] at ht; simp at ht
      | none =>
        rw [hgb] at ht
        simp at ht ⊢
        exact ht.symm

/-- C8 (witness): the unsupported order `"second"` raises, and for the
zero-order scenario the returned text is the full newline-join. -/
theorem model_order_dispatch_witness :
    (scBadOrder.generate_code).2 =
      Except.error (PyError.exceptionModelOrder scBadOrder.model_order) ∧
    String.intercalate "\n" (sc6.source_code ++ (sc6.genBlock).1) =
      String.intercalate "\n" ((sc6.generate_code).1).source_code :=
  ⟨(model_order_dispatch scBadOrder).1 (by decide) (by decide),
   (model_order_dispatch sc6).2
     (String.intercalate "\n" (sc6.source_code ++ (sc6.genBlock).1)) rfl⟩

/-- C7: the linguistic-variable declaration of a variable carries the
`universe_of_discourse` argument with the supplied bounds exactly when
bounds were supplied; with no bounds the declaration is the exact format
without that argument. -/
theorem universe_bounds_declaration (s : SimpfulConverter) (v : Nat)
    (var : String) (sub : List String) :
    (s.extreme_values = none →
      s.lvLine v var sub = Except.ok ("MF_" ++ var ++
        " = LinguisticVariable([" ++ String.intercalate ", " sub ++
        "], concept='" ++ var ++ "')\n")) ∧
    (∀ ev b, s.extreme_values = some ev → ev[v]? = some b →
      s.lvLine v var sub = Except.ok ("MF_" ++ var ++
        " = LinguisticVariable([" ++ String.intercalate ", " sub ++
        "], concept='" ++ var ++ "' , universe_of_discourse=" ++
        pyStrIntList b ++ ")\n")) := by
  constructor
  · intro h
    unfold lvLine
    rw [h]
  · intro ev b h hb
    unfold lvLine
    simp only [h, hb]

/-- C7 (witness): with no bounds the declaration has no
universe-of-discourse argument; with bounds `[0, 10]` for variable 0 it
carries them. -/
theorem universe_bounds_declaration_witness :
    sc6.lvLine 0 "x" ["FS_1"] = Except.ok ("MF_" ++ "x" ++
      " = LinguisticVariable([" ++ String.intercalate ", " ["FS_1"] ++
      "], concept='" ++ "x" ++ "')\n") ∧
    scEV.lvLine 0 "x" ["FS_1"] = Except.ok ("MF_" ++ "x" ++
      " = LinguisticVariable([" ++ String.intercalate ", " ["FS_1"] ++
      "], concept='" ++ "x" ++ "' , universe_of_discourse=" ++
      pyStrIntList [0, 10] ++ ")\n") :=
  ⟨(universe_bounds_declaration sc6 0 "x" ["FS_1"]).1 rfl,
   (universe_bounds_declaration scEV 0 "x" ["FS_1"]).2
     [[0, 10], [1, 5]] [0, 10] rfl rfl⟩

set_option maxRecDepth 8192 in
/-- C6: for the concrete zero-order scenario (variables x, y; one rule
with consequent row [1,2,3]; Gaussian fuzzy sets (0,1) and (1,1)),
construction succeeds with converter `sc6`, generation succeeds, and the
generated text contains the expected rule, the crisp-output binding of
fun1 to [1, 2, 3], the two Gaussian fuzzy-set declarations, and the two
linguistic-variable registrations. -/
theorem concrete_zero_order_scenario :
    SimpfulConverter.init ["x", "y"] [[1, 2, 3]]
      [("gauss", [0, 1]), ("gauss", [1, 1])] "zero" none none none =
        Except.ok sc6 ∧
    ((sc6.generate_code).2).isOk = true ∧
    hasSubstr "IF (x IS cluster1) AND (y IS cluster1) THEN (OUTPUT IS fun1)"
      doc6 = true ∧
    hasSubstr "FS.set_crisp_output_value('fun1', [1, 2, 3])" doc6 = true ∧
    hasSubstr "FS_1 = FuzzySet(function=Gaussian_MF(0.000000, 1.000000), term='cluster1')"
      doc6 = true ∧
    hasSubstr "FS_2 = FuzzySet(function=Gaussian_MF(1.000000, 1.000000), term='cluster1')"
      doc6 = true ∧
    hasSubstr "FS.add_linguistic_variable('x', MF_x)" doc6 = true ∧
    hasSubstr "FS.add_linguistic_variable('y', MF_y)" doc6 = true := by
  refine ⟨rfl, ?_⟩
  decide

/-- C2: generation retains the document between calls: a second
`generate_code` call on the same instance keeps every line appended by
the first call and appends the same generated block again, so the second
result duplicates the rule-declaration and consequent lines. -/
theorem generate_code_twice_duplicates (s : SimpfulConverter) (t : String)
    (h : (s.generate_code).2 = Except.ok t) :
    ((s.generate_code).1.generate_code).1.source_code =
      s.source_code ++ (s.genBlock).1 ++ (s.genBlock).1 ∧
    ((s.generate_code).1.generate_code).2 =
      Except.ok (String.intercalate "\n"
        (s.source_code ++ (s.genBlock).1 ++ (s.genBlock).1)) := by
  cases hgb : s.genBlock with
  | mk b e =>
    cases e with
    | some e0 =>
      exfalso
      unfold generate_code at h
      rw [hgb] at h
      simp at h
    | none =>
      have h1 := generate_code_of_genBlock_none hgb
      have hg2 : genBlock { s with source_code := s.source_code ++ b } =
          (b, none) := by
        rw [genBlock_source_code_irrel, hgb]
      have h2 := generate_code_of_genBlock_none hg2
      rw [h1]
      constructor
      · rw [h2]
      · rw [h2]

/-- C2 (witness): the duplication at the concrete zero-order scenario. -/
theorem generate_code_twice_duplicates_witness :
    ((sc6.generate_code).1.generate_code).1.source_code =
      sc6.source_code ++ (sc6.genBlock).1 ++ (sc6.genBlock).1 :=
  (generate_code_twice_duplicates sc6
    (String.intercalate "\n" (sc6.source_code ++ (sc6.genBlock).1)) rfl).1

set_option maxRecDepth 8192 in
/-- C4 (counterexample): consequent coefficients are NOT rendered with
full floating-point precision: the `%e` conversion keeps seven
significant digits, so the two first-order models with coefficient
12345678 respectively 12345679 — distinct model descriptions — generate
character-for-character identical documents. -/
theorem output_function_precision_collision :
    ((scPrecA.generate_code).2).isOk = true ∧
    (scPrecA.generate_code).2 = (scPrecB.generate_code).2 ∧
    scPrecA.consequents_matrix ≠ scPrecB.consequents_matrix := by
  refine ⟨by decide, rfl, by decide⟩

/-- C4 (amended): for every first-order model whose generation succeeds,
the document contains, per cluster `i`, the output-function statement
binding `fun(i+1)` to the expression built from the cluster's consequent
row: the per-variable terms `coefficient*variableName` joined by `+`
with the bias (last row entry) appended last, each coefficient rendered
by the `%e` conversion (scientific notation with six fraction digits —
seven significant digits, not full floating-point precision). -/
theorem first_order_output_function_lines (s s' : SimpfulConverter)
    (t : String) (h : s.generate_code = (s', Except.ok t))
    (hord : s.model_order = "first") (i : Nat) (row : List Int)
    (hrow : s.consequents_matrix[i]? = some row) (hi : i < s.clusters) :
    ∃ bias, row.getLast? = some bias ∧
      ("FS.set_output_function('fun" ++ toString (i + 1) ++ "', '" ++
        (String.intercalate "+"
          ((s.input_variables.zip row.dropLast).map fun p =>
            formatE p.2 ++ "*" ++ p.1) ++ "+" ++ formatE bias) ++ "')")
        ∈ s'.source_code := by
  obtain ⟨cls, chunk, hcl, hch, hsc, ht⟩ := generate_ok_parts h
  unfold consequentLines at hcl
  rw [if_pos hord] at hcl
  cases hcc : s.create_consequents with
  | error e => rw [hcc] at hcl; cases hcl
  | ok B =>
    rw [hcc] at hcl
    have hcc2 := hcc
    unfold create_consequents at hcc2
    obtain ⟨expr, hBi, hcr⟩ := exceptMap_ok_get hcc2 hrow
    unfold consequentRow at hcr
    cases hlast : row.getLast? with
    | none => rw [hlast] at hcr; cases hcr
    | some bias =>
      rw [hlast] at hcr
      injection hcr with hcr
      refine ⟨bias, rfl, ?_⟩
      have hri : (List.range s.clusters)[i]? = some i := List.getElem?_range hi
      obtain ⟨lineI, hclsI, hfI⟩ := exceptMap_ok_get hcl hri
      rw [hBi] at hfI
      injection hfI with hfI
      have hmem : lineI ∈ cls := List.getElem?_mem hclsI
      rw [hsc]
      rw [hcr, hfI]
      exact List.mem_append_right _
        (List.mem_append_left _ (List.mem_append_right _ hmem))

/-- C4 (witness for the amended claim): the first cluster of the
first-order example model carries its output-function line. -/
theorem first_order_output_function_lines_witness :
    ∃ bias, ([1, 2, 3] : List Int).getLast? = some bias ∧
      ("FS.set_output_function('fun" ++ toString (0 + 1) ++ "', '" ++
        (String.intercalate "+"
          ((scMain.input_variables.zip ([1, 2, 3] : List Int).dropLast).map
            fun p => formatE p.2 ++ "*" ++ p.1) ++ "+" ++ formatE bias) ++ "')")
        ∈ ((scMain.generate_code).1).source_code :=
  first_order_output_function_lines scMain (scMain.generate_code).1
    (String.intercalate "\n" ((scMain.generate_code).1).source_code)
    rfl rfl 0 [1, 2, 3] rfl (by decide)

theorem fuzzySetLine_unsupported (s : SimpfulConverter) (v c : Nat)
    {j : Nat} {tag : String} {params : List Int}
    (hfs : s.fuzzy_sets[j]? = some (tag, params))
    (h1 : tag ≠ "gauss") (h2 : tag ≠ "gauss2") (h3 : tag ≠ "sigmoid")
    (h4 : tag ≠ "invgauss") :
    s.fuzzySetLine v c j = Except.error (PyError.exceptionFuzzySetType tag) := by
  unfold fuzzySetLine fuzzySetBody
  simp only [hfs]
  rw [if_neg h1, if_neg h2, if_neg h3, if_neg h4]

/-- C5: the shape tag of a fuzzy-set entry selects the emitted
constructor and its argument count — `gauss` a Gaussian constructor with
2 arguments, `gauss2` a double-Gaussian constructor with 4, `sigmoid` a
sigmoid constructor with 2, `invgauss` an inverse-Gaussian constructor
with 2 — and any other tag raises the unsupported-fuzzy-set-type
exception, in which case generation returns no usable document. -/
theorem fuzzy_set_type_dispatch (s : SimpfulConverter) (v c j : Nat)
    (tag : String) (params : List Int)
    (hfs : s.fuzzy_sets[j]? = some (tag, params)) :
    (∀ p0 p1, tag = "gauss" → params[0]? = some p0 → params[1]? = some p1 →
      s.fuzzySetLine v c j = Except.ok
        ((if (List.lookup (v, c) s.fuzzy_sets_to_drop).isSome then "# "
          else "") ++ "FS_" ++ toString (j + 1) ++ " = FuzzySet(" ++
          ("function=Gaussian_MF(" ++ formatF p0 ++ ", " ++ formatF p1 ++
            "), term='" ++ ("cluster" ++ toString (c + 1)) ++ "')"))) ∧
    (∀ p0 p1 p2 p3, tag = "gauss2" → params[0]? = some p0 →
        params[1]? = some p1 → params[2]? = some p2 → params[3]? = some p3 →
      s.fuzzySetLine v c j = Except.ok
        ((if (List.lookup (v, c) s.fuzzy_sets_to_drop).isSome then "# "
          else "") ++ "FS_" ++ toString (j + 1) ++ " = FuzzySet(" ++
          ("function=DoubleGaussian_MF(" ++ formatF p0 ++ ", " ++ formatF p1 ++
            ", " ++ formatF p2 ++ ", " ++ formatF p3 ++
            "), term='" ++ ("cluster" ++ toString (c + 1)) ++ "')"))) ∧
    (∀ p0 p1, tag = "sigmoid" → params[0]? = some p0 → params[1]? = some p1 →
      s.fuzzySetLine v c j = Except.ok
        ((if (List.lookup (v, c) s.fuzzy_sets_to_drop).isSome then "# "
          else "") ++ "FS_" ++ toString (j + 1) ++ " = FuzzySet(" ++
          ("function=Sigmoid_MF(" ++ formatF p0 ++ ", " ++ formatF p1 ++
            "), term='" ++ ("cluster" ++ toString (c + 1)) ++ "')"))) ∧
    (∀ p0 p1, tag = "invgauss" → params[0]? = some p0 → params[1]? = some p1 →
      s.fuzzySetLine v c j = Except.ok
        ((if (List.lookup (v, c) s.fuzzy_sets_to_drop).isSome then "# "
          else "") ++ "FS_" ++ toString (j + 1) ++ " = FuzzySet(" ++
          ("function=InvGaussian_MF(" ++ formatF p0 ++ ", " ++ formatF p1 ++
            "), term='" ++ ("cluster" ++ toString (c + 1)) ++ "')"))) ∧
    (tag ≠ "gauss" → tag ≠ "gauss2" → tag ≠ "sigmoid" → tag ≠ "invgauss" →
      s.fuzzySetLine v c j = Except.error (PyError.exceptionFuzzySetType tag) ∧
      (∀ var, s.input_variables[v]? = some var → c < s.clusters →
        j = v * s.clusters + c → ((s.generate_code).2).isOk = false)) := by
  refine ⟨?_, ?_, ?_, ?_, ?_⟩
  · intro p0 p1 htag h0 h1
    subst htag
    unfold fuzzySetLine fuzzySetBody
    simp only [hfs, h0, h1]
    rfl
  · intro p0 p1 p2 p3 htag h0 h1 h2 h3
    subst htag
    unfold fuzzySetLine fuzzySetBody
    simp only [hfs, h0, h1, h2, h3]
    rfl
  · intro p0 p1 htag h0 h1
    subst htag
    unfold fuzzySetLine fuzzySetBody
    simp only [hfs, h0, h1]
    rfl
  · intro p0 p1 htag h0 h1
    subst htag
    unfold fuzzySetLine fuzzySetBody
    simp only [hfs, h0, h1]
    rfl
  · intro h1 h2 h3 h4
    have herr := fuzzySetLine_unsupported s v c hfs h1 h2 h3 h4
    refine ⟨herr, ?_⟩
    intro var hvar hc hj
    cases hgen : (s.generate_code).2 with
    | error e => rfl
    | ok t =>
      exfalso
      have hpair : s.generate_code = ((s.generate_code).1, Except.ok t) := by
        rw [← hgen]
      obtain ⟨cls, chunk, hcl, hch, _, _⟩ := generate_ok_parts hpair
      obtain ⟨line, hline⟩ := create_fuzzy_sets_ok_line hch hvar hc
      rw [← hj] at hline
      rw [herr] at hline
      cases hline

/-- C5 (witness): a Gaussian entry emits the 2-argument constructor, the
tag `"triangle"` raises the unsupported-fuzzy-set-type exception, and
generation on that model returns no document. -/
theorem fuzzy_set_type_dispatch_witness :
    scMain.fuzzySetLine 0 0 0 = Except.ok
      ((if (List.lookup (0, 0) scMain.fuzzy_sets_to_drop).isSome then "# "
        else "") ++ "FS_" ++ toString (0 + 1) ++ " = FuzzySet(" ++
        ("function=Gaussian_MF(" ++ formatF 0 ++ ", " ++ formatF 1 ++
          "), term='" ++ ("cluster" ++ toString (0 + 1)) ++ "')")) ∧
    scTriangle.fuzzySetLine 0 0 0 =
      Except.error (PyError.exceptionFuzzySetType "triangle") ∧
    ((scTriangle.generate_code).2).isOk = false :=
  ⟨(fuzzy_set_type_dispatch scMain 0 0 0 "gauss" [0, 1] rfl).1 0 1 rfl rfl rfl,
   ((fuzzy_set_type_dispatch scTriangle 0 0 0 "triangle" [0, 1] rfl).2.2.2.2
     (by decide) (by decide) (by decide) (by decide)).1,
   ((fuzzy_set_type_dispatch scTriangle 0 0 0 "triangle" [0, 1] rfl).2.2.2.2
     (by decide) (by decide) (by decide) (by decide)).2 "x" rfl (by decide) rfl⟩

/-- C3: for a (variable, cluster) pair in the drop-set with replacement
`r` and a successful generation: the document's fuzzy-set chunk contains
that pair's declaration as a line prefixed by `# ` (a comment), the
pair's `FS_j` identifier is excluded from the variable's
linguistic-variable member list, and rule `c`'s antecedent clause for
that variable references the replacement cluster `r+1` instead of the
rule's own cluster `c+1`. -/
theorem drop_set_behavior (s s' : SimpfulConverter) (t : String)
    (v c r : Nat) (var : String)
    (hgen : s.generate_code = (s', Except.ok t))
    (hvar : s.input_variables[v]? = some var)
    (hc : c < s.clusters)
    (hdrop : List.lookup (v, c) s.fuzzy_sets_to_drop = some r) :
    ∃ chunk line pre post body,
      s.create_fuzzy_sets = Except.ok chunk ∧
      chunk ∈ s'.source_code ∧
      s.fuzzySetLine v c (v * s.clusters + c) = Except.ok line ∧
      line = "# " ++ body ∧
      chunk = pre ++ ((line ++ "\n") ++ post) ∧
      lineStart pre ∧
      "FS_" ++ toString (v * s.clusters + c + 1) ∉
        s.subchunkOfVar v (v * s.clusters) ∧
      (s.create_antecedents)[c]? = some (String.intercalate " AND "
        (s.input_variables.enum.map fun p =>
          match List.lookup (p.1, c) s.fuzzy_sets_to_drop with
          | some r0 => "(" ++ p.2 ++ " IS cluster" ++ toString (r0 + 1) ++ ")"
          | none => "(" ++ p.2 ++ " IS cluster" ++ toString (c + 1) ++ ")")) ∧
      ((s.input_variables.enum.map fun p =>
          match List.lookup (p.1, c) s.fuzzy_sets_to_drop with
          | some r0 => "(" ++ p.2 ++ " IS cluster" ++ toString (r0 + 1) ++ ")"
          | none => "(" ++ p.2 ++ " IS cluster" ++ toString (c + 1) ++ ")")[v]? =
        some ("(" ++ var ++ " IS cluster" ++ toString (r + 1) ++ ")")) := by
  obtain ⟨cls, chunk, hcl, hch, hsc, ht⟩ := generate_ok_parts hgen
  have hcfs : cfsGo s s.input_variables.enum = Except.ok chunk := hch
  have hmemv : (v, var) ∈ s.input_variables.enum :=
    List.mk_mem_enum_iff_getElem?.mpr hvar
  obtain ⟨preA, vb, postA, hchEq, hvb, hpreA⟩ := cfsGo_ok_split hcfs hmemv
  obtain ⟨line, preB, postB, hfl, hvbEq, hpreB⟩ := varBlock_line_split hvb hc
  obtain ⟨body, hbody⟩ := fuzzySetLine_dropped hdrop hfl
  refine ⟨chunk, line, preA ++ preB, postB ++ postA, body, hch, ?_, hfl,
    hbody, ?_, lineStart_append hpreA hpreB, ?_, ?_, ?_⟩
  · rw [hsc]
    simp
  · rw [hchEq, hvbEq]
    simp only [String.append_assoc]
  · intro hmem
    unfold subchunkOfVar at hmem
    obtain ⟨c2, hc2mem, hc2eq⟩ := List.mem_map.mp hmem
    obtain ⟨hc2range, hc2none⟩ := List.mem_filter.mp hc2mem
    have hdata := congrArg String.data hc2eq
    simp only [String.data_append] at hdata
    have hts : toString (v * s.clusters + c2 + 1) =
        toString (v * s.clusters + c + 1) :=
      String.ext (List.append_cancel_left hdata)
    have hc2c : c2 = c := by
      have := natToString_inj hts
      omega
    subst hc2c
    rw [hdrop] at hc2none
    simp at hc2none
  · unfold create_antecedents
    rw [List.getElem?_map, List.getElem?_range hc]
    rfl
  · rw [List.getElem?_map, List.getElem?_enum, hvar]
    simp [hdrop]

/-- C3 (witness): in the model `scDrop` with drop-set entry
`(0, 1) ↦ 0`, applied at variable 0 (`x`), cluster 1, replacement 0. -/
theorem drop_set_behavior_witness :
    ∃ chunk line pre post body,
      scDrop.create_fuzzy_sets = Except.ok chunk ∧
      chunk ∈ ((scDrop.generate_code).1).source_code ∧
      scDrop.fuzzySetLine 0 1 (0 * scDrop.clusters + 1) = Except.ok line ∧
      line = "# " ++ body ∧
      chunk = pre ++ ((line ++ "\n") ++ post) ∧
      lineStart pre ∧
      "FS_" ++ toString (0 * scDrop.clusters + 1 + 1) ∉
        scDrop.subchunkOfVar 0 (0 * scDrop.clusters) ∧
      (scDrop.create_antecedents)[1]? = some (String.intercalate " AND "
        (scDrop.input_variables.enum.map fun p =>
          match List.lookup (p.1, 1) scDrop.fuzzy_sets_to_drop with
          | some r0 => "(" ++ p.2 ++ " IS cluster" ++ toString (r0 + 1) ++ ")"
          | none => "(" ++ p.2 ++ " IS cluster" ++ toString (1 + 1) ++ ")")) ∧
      ((scDrop.input_variables.enum.map fun p =>
          match List.lookup (p.1, 1) scDrop.fuzzy_sets_to_drop with
          | some r0 => "(" ++ p.2 ++ " IS cluster" ++ toString (r0 + 1) ++ ")"
          | none => "(" ++ p.2 ++ " IS cluster" ++ toString (1 + 1) ++ ")")[0]? =
        some ("(" ++ "x" ++ " IS cluster" ++ toString (0 + 1) ++ ")")) :=
  drop_set_behavior scDrop (scDrop.generate_code).1
    (String.intercalate "\n" ((scDrop.generate_code).1).source_code) 0 1 0 "x"
    rfl rfl (by decide) rfl
